import Mathlib

/-!
# Verification of the PanPhlAn coverage-classification pipeline

Shallow embedding of the core numeric pipeline of `panphlan_profile.py`
(coverage aggregation, plateau sample filtering, DNA indexing, strain
filtering/merging, RNA/DNA co-normalization) together with proofs of the
specification's claims about it.

Embedding conventions:
* Python floats are modelled as exact rationals (`ℚ`); a decimal literal such
  as `0.3` denotes its exact decimal value `3/10`.
* Python `int(x)` (truncation toward zero) is `pyTrunc`; on non-negative
  arguments it agrees with the floor, and rank computations on natural numbers
  use Lean's natural-number division (which is the floor).
* Fallible operations (list indexing that can raise `IndexError`, parsing that
  can raise `ValueError`) are modelled with `Option` / `Except`.
* Python dictionaries keyed by strings are modelled as total functions from
  `String` (partial maps as functions into `Option`), together with an explicit
  key list where iteration order or the key set matters.
-/

namespace Panphlan

/-- Python `int()` truncation toward zero on a rational. -/
def pyTrunc (q : ℚ) : ℤ := if 0 ≤ q then ⌊q⌋ else ⌈q⌉

theorem pyTrunc_mono {x y : ℚ} (h : x ≤ y) : pyTrunc x ≤ pyTrunc y := by
  unfold pyTrunc
  rcases le_or_lt 0 x with hx | hx <;> rcases le_or_lt 0 y with hy | hy
  · rw [if_pos hx, if_pos hy]
    exact Int.floor_le_floor h
  · exact absurd (hx.trans h) (not_le.mpr hy)
  · rw [if_neg (not_le.mpr hx), if_pos hy]
    calc ⌈x⌉ ≤ 0 := Int.ceil_le.mpr (by exact_mod_cast hx.le)
      _ ≤ ⌊y⌋ := Int.floor_nonneg.mpr hy
  · rw [if_neg (not_le.mpr hx), if_neg (not_le.mpr hy)]
    exact Int.ceil_le_ceil h

/-! ## 4.4 DNA Indexer — `index_of` (panphlan_profile.py, lines 672-683)

```python
def index_of(min_thresh, med_thresh, max_thresh, normalized_coverage):
    if normalized_coverage < min_thresh:
        return -3
    elif normalized_coverage <= med_thresh:
        return -2
    elif normalized_coverage <= max_thresh:
        return  1
    else:
        return -1
```
-/

def index_of (min_thresh med_thresh max_thresh normalized_coverage : ℚ) : ℤ :=
  if normalized_coverage < min_thresh then -3
  else if normalized_coverage ≤ med_thresh then -2
  else if normalized_coverage ≤ max_thresh then 1
  else -1

/-- C1: for every normalized coverage `x ≥ 0` and thresholds `z < p < m`, the
DNA indexer is a total function into `{1, -1, -2, -3}` returning ABSENT(-3)
when `x < z`, AMBIGUOUS(-2) when `z ≤ x ≤ p`, PRESENT(1) when `p < x ≤ m`,
and MULTICOPY(-1) when `x > m`. -/
theorem index_of_total_spec (z p m x : ℚ) (_hx : 0 ≤ x) (hzp : z < p) (hpm : p < m) :
    (index_of z p m x = 1 ∨ index_of z p m x = -1 ∨
      index_of z p m x = -2 ∨ index_of z p m x = -3) ∧
    (x < z → index_of z p m x = -3) ∧
    (z ≤ x → x ≤ p → index_of z p m x = -2) ∧
    (p < x → x ≤ m → index_of z p m x = 1) ∧
    (m < x → index_of z p m x = -1) := by
  unfold index_of
  refine ⟨?_, ?_, ?_, ?_, ?_⟩ <;> intros <;> split_ifs <;>
    first
      | tauto
      | rfl
      | (exfalso; linarith)

/-- C1 witness: the theorem applied at thresholds `(0.25, 0.5, 1.5)` and
coverage `2`, which is classified MULTICOPY(-1). -/
theorem index_of_total_spec_witness : index_of (1/4) (1/2) (3/2) 2 = -1 :=
  (index_of_total_spec (1/4) (1/2) (3/2) 2 (by norm_num) (by norm_num)
    (by norm_num)).2.2.2.2 (by norm_num)

/-- C2 counterexample: with thresholds `(0.25, 0.5, 1.5)` the exact boundary
value `p = 0.5` is indexed AMBIGUOUS(-2), not PRESENT(1) as the claim states
(the Python code tests `normalized_coverage <= med_thresh` before the PRESENT
branch, so `p` itself falls into the AMBIGUOUS interval). -/
theorem index_of_boundary_counterexample :
    index_of (1/4) (1/2) (3/2) (1/2) = -2 ∧ ¬ index_of (1/4) (1/2) (3/2) (1/2) = 1 := by
  norm_num [index_of]

/-- C2 (amended): for every thresholds `z < p`, the DNA indexer maps the exact
boundary value `p` to AMBIGUOUS(-2); in particular with thresholds
`(0.25, 0.5, 1.5)`, input `0.5` yields AMBIGUOUS(-2), input `0.25` yields
AMBIGUOUS(-2), input `1.5` yields PRESENT(1), input `1.51` yields
MULTICOPY(-1), and input `0.24` yields ABSENT(-3). -/
theorem index_of_boundary_amended :
    (∀ z p m : ℚ, z < p → index_of z p m p = -2) ∧
    index_of (1/4) (1/2) (3/2) (1/2) = -2 ∧
    index_of (1/4) (1/2) (3/2) (1/4) = -2 ∧
    index_of (1/4) (1/2) (3/2) (3/2) = 1 ∧
    index_of (1/4) (1/2) (3/2) (151/100) = -1 ∧
    index_of (1/4) (1/2) (3/2) (6/25) = -3 := by
  refine ⟨fun z p m hzp => ?_, ?_, ?_, ?_, ?_, ?_⟩
  · unfold index_of
    rw [if_neg (not_lt.mpr hzp.le), if_pos le_rfl]
  all_goals norm_num [index_of]

/-- C2 witness: the universally quantified part of the amended claim applied at
thresholds `(0, 1, 2)` and coverage `1`. -/
theorem index_of_boundary_amended_witness : index_of 0 1 2 1 = -2 :=
  index_of_boundary_amended.1 0 1 2 (by norm_num)

/-! ## 4.7 RNA/DNA ratio — `rna_seq` (panphlan_profile.py, lines 422-428)

```python
dna_cov = dna_sample2family2cov[dna_sample][f]
if dna_cov == 0.0: # We avoid a division by zero :)
    sample2family2rna_div_dna[dna_sample][f] = 0.0
else:
    rna_cov = rna_sample2family2cov[rna_sample][f]
    sample2family2rna_div_dna[dna_sample][f] = rna_cov / dna_cov
```
-/

/-- Division that fails (models a Python `ZeroDivisionError`) on a zero
divisor. -/
def div_checked (a b : ℚ) : Option ℚ := if b = 0 then none else some (a / b)

/-- RNA/DNA ratio for one family: the zero-DNA branch returns `0.0` without
dividing; otherwise the checked division runs. -/
def rna_div_dna (dna_cov rna_cov : ℚ) : Option ℚ :=
  if dna_cov = 0 then some 0 else div_checked rna_cov dna_cov

/-- C9: the RNA/DNA ratio is exactly `0.0` whenever the DNA family coverage is
exactly `0`, and equals `RNA/DNA` otherwise; the division never fails. -/
theorem rna_div_dna_spec (dna rna : ℚ) :
    (∃ q, rna_div_dna dna rna = some q) ∧
    (dna = 0 → rna_div_dna dna rna = some 0) ∧
    (dna ≠ 0 → rna_div_dna dna rna = some (rna / dna)) := by
  unfold rna_div_dna div_checked
  by_cases h : dna = 0 <;> simp [h]

/-- C9 witness: the theorem applied at DNA coverage `0` (ratio `0`) and at DNA
coverage `2` with RNA coverage `7` (ratio `7/2`). -/
theorem rna_div_dna_spec_witness :
    rna_div_dna 0 7 = some 0 ∧ rna_div_dna 2 7 = some (7/2) :=
  ⟨(rna_div_dna_spec 0 7).2.1 rfl, (rna_div_dna_spec 2 7).2.2 (by norm_num)⟩

/-! ## 4.3 Plateau Sample Filter — `dna_sample_filtering`
(panphlan_profile.py, lines 781-827)

For one sample the code sorts the family coverage values ascending
(`sorted(d.items(), key=lambda x: x[1])`) and reverses, takes
`numpy.median` of the first `genome_length` values, builds the
median-normalized vector over the whole descending list (`0.0` when the
median is `0`), and then:

```python
sample2accepted[sample] = True if median[sample] >= threshold else False
if sample2accepted[sample]:
    left = median_normalized_covs[sample][int(genome_length * 0.3)]
    right = median_normalized_covs[sample][int(genome_length * 0.7)]
    if left > threshold_plateau_left_max:
        sample2accepted[sample] = False
    elif right < threshold_plateau_right_min:
        sample2accepted[sample] = False
```

Only the multiset of coverage values matters for the rank lookups (the
descending value sequence of a multiset is unique), so the per-sample input is
the list of family coverage values. -/

def sortAsc (l : List ℚ) : List ℚ := l.insertionSort (· ≤ ·)

/-- `numpy.median` of a list: middle element of the sorted list, or the mean of
the two middle elements for even length. The empty case (where numpy yields
NaN) is mapped to `0`; no claim uses it. -/
def npMedian (l : List ℚ) : ℚ :=
  if l.length = 0 then 0
  else if l.length % 2 = 1 then (sortAsc l).getD (l.length / 2) 0
  else ((sortAsc l).getD (l.length / 2 - 1) 0 + (sortAsc l).getD (l.length / 2) 0) / 2

/-- The coverage values sorted descending (ascending sort, then `[::-1]`). -/
def covsDesc (covs : List ℚ) : List ℚ := (sortAsc covs).reverse

/-- Median of the top `genome_length` coverage values. -/
def medianTop (covs : List ℚ) (genome_length : ℕ) : ℚ :=
  npMedian ((covsDesc covs).take genome_length)

/-- Median normalization of one value: `0.0` when the median is `0`. -/
def normalize (m c : ℚ) : ℚ := if m = 0 then 0 else c / m

/-- The median-normalized coverage vector, in descending coverage order. -/
def median_normalized_covs (covs : List ℚ) (genome_length : ℕ) : List ℚ :=
  (covsDesc covs).map (normalize (medianTop covs genome_length))

/-- The left lookup rank `int(genome_length * 0.3)` (exact-rational embedding
of the float literal; truncation of a non-negative value is floor). -/
def rank_left (genome_length : ℕ) : ℕ := 3 * genome_length / 10

/-- The right lookup rank `int(genome_length * 0.7)`. -/
def rank_right (genome_length : ℕ) : ℕ := 7 * genome_length / 10

/-- Acceptance decision of the plateau filter for one sample; `none` models an
`IndexError` in the rank lookups. -/
def plateau_accept (covs : List ℚ) (genome_length : ℕ)
    (min_coverage left_max right_min : ℚ) : Option Bool :=
  if min_coverage ≤ medianTop covs genome_length then
    match (median_normalized_covs covs genome_length).get? (rank_left genome_length),
          (median_normalized_covs covs genome_length).get? (rank_right genome_length) with
    | some left, some right =>
        if left_max < left then some false
        else if right < right_min then some false
        else some true
    | _, _ => none
  else some false

/-- C4: the plateau filter accepts a sample iff all three tests pass: the
median of the top `genome_length` descending-sorted coverages is at least
`min_coverage`, the normalized value at rank `⌊0.3·genome_length⌋` is at most
`left_max`, and the value at rank `⌊0.7·genome_length⌋` is at least
`right_min`. -/
theorem plateau_accept_iff (covs : List ℚ) (genome_length : ℕ)
    (min_coverage left_max right_min left right : ℚ)
    (hl : (median_normalized_covs covs genome_length).get? (rank_left genome_length) =
      some left)
    (hr : (median_normalized_covs covs genome_length).get? (rank_right genome_length) =
      some right) :
    plateau_accept covs genome_length min_coverage left_max right_min = some true ↔
      (min_coverage ≤ medianTop covs genome_length ∧ left ≤ left_max ∧ right_min ≤ right) := by
  unfold plateau_accept
  rw [hl, hr]
  by_cases h1 : min_coverage ≤ medianTop covs genome_length
  · rw [if_pos h1]
    show (if left_max < left then some false
      else if right < right_min then some false else some true) = some true ↔ _
    split_ifs with h2 h3
    · simp only [show ¬(some false = some true) from by simp, false_iff]
      rintro ⟨-, hle, -⟩
      exact absurd h2 (not_lt.mpr hle)
    · simp only [show ¬(some false = some true) from by simp, false_iff]
      rintro ⟨-, -, hge⟩
      exact absurd h3 (not_lt.mpr hge)
    · simp only [true_iff]
      exact ⟨h1, not_lt.mp h2, not_lt.mp h3⟩
  · rw [if_neg h1]
    simp only [show ¬(some false = some true) from by simp, false_iff]
    rintro ⟨hc, -, -⟩
    exact h1 hc

/-- C4 witness: the spec's end-to-end example. Coverages `{10, 9, 1}` with
`genome_length = 2`: the median of the top two values is `19/2`, the lookup
ranks are `0` and `1`, the normalized values there are `20/19` and `18/19`,
and with `min_coverage = 2`, `left_max = 5/4`, `right_min = 3/4` the sample is
accepted. -/
theorem plateau_accept_iff_witness :
    plateau_accept [10, 9, 1] 2 2 (5/4) (3/4) = some true :=
  (plateau_accept_iff [10, 9, 1] 2 2 (5/4) (3/4) (20/19) (18/19)
    (by norm_num [median_normalized_covs, covsDesc, sortAsc, medianTop, npMedian,
      normalize, rank_left, List.insertionSort, List.orderedInsert, List.get?])
    (by norm_num [median_normalized_covs, covsDesc, sortAsc, medianTop, npMedian,
      normalize, rank_right, List.insertionSort, List.orderedInsert, List.get?])).mpr
    (by refine ⟨?_, ?_, ?_⟩ <;>
      norm_num [medianTop, covsDesc, sortAsc, npMedian, List.insertionSort,
        List.orderedInsert])

/-! ## C10: safety of the rank lookups

`avg_genome_length` is `int(numpy.median(...))` of the per-genome family-set
sizes (`build_mappings`, line 1019); each genome's family set is a subset of
the clade-wide family universe, so each size is at most the number of
families; the coverage aggregator gives every family of the universe an entry,
so the per-sample coverage list has exactly one value per family. -/

/-- The per-genome family-set sizes as rationals. -/
def ratList (l : List ℕ) : List ℚ := l.map (fun k : ℕ => (k : ℚ))

/-- `avg_genome_length = int(numpy.median(list(genome_lengths.values())))`. -/
def avg_genome_length (genome_sizes : List ℕ) : ℕ :=
  (pyTrunc (npMedian (ratList genome_sizes))).toNat

theorem npMedian_le {l : List ℚ} {B : ℚ} (hne : l ≠ []) (hb : ∀ x ∈ l, x ≤ B) :
    npMedian l ≤ B := by
  have hlen : (sortAsc l).length = l.length := List.length_insertionSort _ _
  have hmem : ∀ x ∈ sortAsc l, x ≤ B := fun x hx =>
    hb x ((List.mem_insertionSort _).mp hx)
  have hn : 0 < l.length := List.length_pos.mpr hne
  have hget : ∀ i, i < l.length → (sortAsc l).getD i 0 ≤ B := by
    intro i hi
    have hi' : i < (sortAsc l).length := hlen ▸ hi
    rw [List.getD_eq_getElem _ 0 hi']
    exact hmem _ (List.getElem_mem hi')
  unfold npMedian
  rw [if_neg (Nat.pos_iff_ne_zero.mp hn)]
  split_ifs with hodd
  · exact hget _ (Nat.div_lt_self hn (by norm_num))
  · have h1 : (sortAsc l).getD (l.length / 2 - 1) 0 ≤ B := by
      apply hget
      omega
    have h2 : (sortAsc l).getD (l.length / 2) 0 ≤ B :=
      hget _ (Nat.div_lt_self hn (by norm_num))
    linarith

theorem avg_genome_length_le {genome_sizes : List ℕ} {N : ℕ}
    (hne : genome_sizes ≠ []) (hb : ∀ k ∈ genome_sizes, k ≤ N) :
    avg_genome_length genome_sizes ≤ N := by
  have hmed : npMedian (ratList genome_sizes) ≤ (N : ℚ) := by
    apply npMedian_le
    · unfold ratList
      exact fun h => hne (List.map_eq_nil_iff.mp h)
    · intro x hx
      unfold ratList at hx
      rw [List.mem_map] at hx
      obtain ⟨k, hk, hkx⟩ := hx
      rw [← hkx]
      exact_mod_cast hb k hk
  unfold avg_genome_length pyTrunc
  split_ifs with hpos
  · have : ⌊npMedian (ratList genome_sizes)⌋ ≤ (N : ℤ) :=
      calc ⌊npMedian (ratList genome_sizes)⌋
          ≤ ⌊(N : ℚ)⌋ := Int.floor_le_floor hmed
        _ = N := Int.floor_natCast N
    omega
  · have : ⌈npMedian (ratList genome_sizes)⌉ ≤ 0 :=
      Int.ceil_le.mpr (by exact_mod_cast (le_of_not_le hpos))
    omega

theorem length_median_normalized_covs (covs : List ℚ) (genome_length : ℕ) :
    (median_normalized_covs covs genome_length).length = covs.length := by
  simp [median_normalized_covs, covsDesc, sortAsc, List.length_insertionSort]

/-- C10: with one coverage entry per family of a non-empty universe of `N`
families and per-genome family counts each at most `N`, the integer median
`avg_genome_length` never exceeds `N`, both rank lookups of the plateau filter
are in bounds, and the filter never fails with an `IndexError`. -/
theorem plateau_rank_indexing_safe (genome_sizes : List ℕ) (N : ℕ) (covs : List ℚ)
    (min_coverage left_max right_min : ℚ)
    (hne : genome_sizes ≠ []) (hb : ∀ k ∈ genome_sizes, k ≤ N)
    (hcov : covs.length = N) (hN : 1 ≤ N) :
    avg_genome_length genome_sizes ≤ N ∧
    ((median_normalized_covs covs (avg_genome_length genome_sizes)).get?
      (rank_left (avg_genome_length genome_sizes))).isSome ∧
    ((median_normalized_covs covs (avg_genome_length genome_sizes)).get?
      (rank_right (avg_genome_length genome_sizes))).isSome ∧
    plateau_accept covs (avg_genome_length genome_sizes)
      min_coverage left_max right_min ≠ none := by
  have hL : avg_genome_length genome_sizes ≤ N := avg_genome_length_le hne hb
  have hlen : (median_normalized_covs covs (avg_genome_length genome_sizes)).length = N :=
    (length_median_normalized_covs covs _).trans hcov
  have hleft : rank_left (avg_genome_length genome_sizes) <
      (median_normalized_covs covs (avg_genome_length genome_sizes)).length := by
    rw [hlen]; unfold rank_left; omega
  have hright : rank_right (avg_genome_length genome_sizes) <
      (median_normalized_covs covs (avg_genome_length genome_sizes)).length := by
    rw [hlen]; unfold rank_right; omega
  obtain ⟨vl, hvl⟩ : ∃ v, (median_normalized_covs covs (avg_genome_length genome_sizes)).get?
      (rank_left (avg_genome_length genome_sizes)) = some v :=
    ⟨_, List.get?_eq_some.mpr ⟨hleft, rfl⟩⟩
  obtain ⟨vr, hvr⟩ : ∃ v, (median_normalized_covs covs (avg_genome_length genome_sizes)).get?
      (rank_right (avg_genome_length genome_sizes)) = some v :=
    ⟨_, List.get?_eq_some.mpr ⟨hright, rfl⟩⟩
  refine ⟨hL, by rw [hvl]; rfl, by rw [hvr]; rfl, ?_⟩
  unfold plateau_accept
  rw [hvl, hvr]
  by_cases h1 : min_coverage ≤ medianTop covs (avg_genome_length genome_sizes)
  · rw [if_pos h1]
    show ¬(if left_max < vl then some false
      else if vr < right_min then some false else some true) = none
    split_ifs <;> simp
  · rw [if_neg h1]
    simp

/-- C10 witness: a universe with one family, a single reference genome of one
family, and a sample with one coverage value: `avg_genome_length = 1`, both
rank lookups land in bounds, and the filter returns a decision. -/
theorem plateau_rank_indexing_safe_witness :
    avg_genome_length [1] ≤ 1 ∧
    ((median_normalized_covs [5] (avg_genome_length [1])).get?
      (rank_left (avg_genome_length [1]))).isSome ∧
    ((median_normalized_covs [5] (avg_genome_length [1])).get?
      (rank_right (avg_genome_length [1]))).isSome ∧
    plateau_accept [5] (avg_genome_length [1]) 2 (5/4) (3/4) ≠ none :=
  plateau_rank_indexing_safe [1] 1 [5] 2 (5/4) (3/4) (by simp)
    (by intro k hk; simp at hk; omega) (by simp) le_rfl

/-! ## 4.2 Coverage Aggregator — `families_coverages`
(panphlan_profile.py, lines 951-971)

```python
for g in gene2family:
    if g in gene2cov:
        family2cov[gene2family[g]].append((gene2cov[g], lengths[g]))
    else:
        family2cov[gene2family[g]].append((0, lengths[g]))
for f in family2cov:
    sum_of_covs = float(sum(e[0] for e in family2cov[f]))
    sum_of_lens = float(sum(e[1] for e in family2cov[f]))
    cov = sum_of_covs / (sum_of_lens / len(family2cov[f]))
    family2cov[f] = cov
```

`genes` is the key list of `gene2family`; `gene2cov` is a partial map (genes
absent from the coverage file give `none`). The output is modelled per family:
`none` when the family has no member gene (the Python dict then has no entry
for it). -/

/-- The `(coverage, length)` pairs accumulated for family `f`. -/
def family_gene_entries (genes : List String) (gene2family : String → String)
    (gene2cov : String → Option ℚ) (gene_lengths : String → ℚ) (f : String) :
    List (ℚ × ℚ) :=
  (genes.filter (fun g => gene2family g == f)).map (fun g =>
    match gene2cov g with
    | some c => (c, gene_lengths g)
    | none => (0, gene_lengths g))

/-- The aggregated coverage of family `f`. -/
def families_coverages (genes : List String) (gene2family : String → String)
    (gene2cov : String → Option ℚ) (gene_lengths : String → ℚ) (f : String) :
    Option ℚ :=
  if (family_gene_entries genes gene2family gene2cov gene_lengths f).isEmpty then none
  else some
    (((family_gene_entries genes gene2family gene2cov gene_lengths f).map Prod.fst).sum /
      (((family_gene_entries genes gene2family gene2cov gene_lengths f).map Prod.snd).sum /
        ((family_gene_entries genes gene2family gene2cov gene_lengths f).length : ℚ)))

/-- The member genes of family `f`. -/
def spec_members (genes : List String) (gene2family : String → String) (f : String) :
    List String :=
  genes.filter (fun g => gene2family g == f)

/-- Spec-side aggregation formula, written from the spec's words for the
refinement comparison: (sum of the raw coverages of the family's member genes,
counting an unobserved gene as 0) divided by (sum of the member genes' lengths
divided by the number of member genes). -/
def spec_family_coverage (genes : List String) (gene2family : String → String)
    (gene2cov : String → Option ℚ) (gene_lengths : String → ℚ) (f : String) : ℚ :=
  ((spec_members genes gene2family f).map (fun g => (gene2cov g).getD 0)).sum /
    (((spec_members genes gene2family f).map gene_lengths).sum /
      ((spec_members genes gene2family f).length : ℚ))

theorem family_gene_entries_fst (genes : List String) (gene2family : String → String)
    (gene2cov : String → Option ℚ) (gene_lengths : String → ℚ) (f : String) :
    (family_gene_entries genes gene2family gene2cov gene_lengths f).map Prod.fst =
      (spec_members genes gene2family f).map (fun g => (gene2cov g).getD 0) := by
  unfold family_gene_entries spec_members
  rw [List.map_map]
  apply List.map_congr_left
  intro g _
  cases hc : gene2cov g <;> simp [hc, Function.comp]

theorem family_gene_entries_snd (genes : List String) (gene2family : String → String)
    (gene2cov : String → Option ℚ) (gene_lengths : String → ℚ) (f : String) :
    (family_gene_entries genes gene2family gene2cov gene_lengths f).map Prod.snd =
      (spec_members genes gene2family f).map gene_lengths := by
  unfold family_gene_entries spec_members
  rw [List.map_map]
  apply List.map_congr_left
  intro g _
  cases hc : gene2cov g <;> simp [hc, Function.comp]

theorem family_gene_entries_length (genes : List String) (gene2family : String → String)
    (gene2cov : String → Option ℚ) (gene_lengths : String → ℚ) (f : String) :
    (family_gene_entries genes gene2family gene2cov gene_lengths f).length =
      (spec_members genes gene2family f).length := by
  unfold family_gene_entries spec_members
  rw [List.length_map]

/-- C3: for every family `f` with at least one member gene, the aggregator
produces an entry equal to the spec's length-weighted formula (genes missing
from the coverage map counted as coverage 0), and the entry is `0.0` when no
member gene was observed. -/
theorem families_coverages_spec (genes : List String) (gene2family : String → String)
    (gene2cov : String → Option ℚ) (gene_lengths : String → ℚ) (f : String) :
    ((∃ g ∈ genes, gene2family g = f) →
      families_coverages genes gene2family gene2cov gene_lengths f =
        some (spec_family_coverage genes gene2family gene2cov gene_lengths f)) ∧
    ((∃ g ∈ genes, gene2family g = f) →
      (∀ g ∈ genes, gene2family g = f → gene2cov g = none) →
      families_coverages genes gene2family gene2cov gene_lengths f = some 0) := by
  have hne : (∃ g ∈ genes, gene2family g = f) →
      ¬(family_gene_entries genes gene2family gene2cov gene_lengths f).isEmpty = true := by
    rintro ⟨g, hg, hgf⟩
    have hmem : g ∈ spec_members genes gene2family f :=
      List.mem_filter.mpr ⟨hg, by simp [hgf]⟩
    unfold family_gene_entries
    intro habs
    rw [List.isEmpty_iff, List.map_eq_nil_iff] at habs
    unfold spec_members at hmem
    rw [habs] at hmem
    exact List.not_mem_nil g hmem
  constructor
  · intro hex
    unfold families_coverages
    rw [if_neg (hne hex), family_gene_entries_fst, family_gene_entries_snd,
      family_gene_entries_length]
    rfl
  · intro hex hnone
    unfold families_coverages
    rw [if_neg (hne hex), family_gene_entries_fst]
    have hzero : ((spec_members genes gene2family f).map
        (fun g => (gene2cov g).getD 0)).sum = 0 := by
      apply List.sum_eq_zero
      intro x hx
      rw [List.mem_map] at hx
      obtain ⟨g, hg, hgx⟩ := hx
      obtain ⟨hg', hgf⟩ := List.mem_filter.mp hg
      rw [← hgx, hnone g hg' (by simpa using hgf)]
      rfl
    rw [hzero, zero_div]

/-- C3 witness: two genes of lengths 100 and 200 with coverages 10 and 20 give
family coverage `(10+20)/((100+200)/2) = 0.2`. -/
theorem families_coverages_spec_witness :
    families_coverages ["g1", "g2"] (fun _ => "F")
      (fun g => if g = "g1" then some 10 else some 20)
      (fun g => if g = "g1" then 100 else 200) "F" = some (1/5) :=
  ((families_coverages_spec ["g1", "g2"] (fun _ => "F")
      (fun g => if g = "g1" then some 10 else some 20)
      (fun g => if g = "g1" then 100 else 200) "F").1
    ⟨"g1", by simp, rfl⟩).trans
    (congrArg some (by
      simp +decide [spec_family_coverage, spec_members, List.filter]
      norm_num))

/-! ## 4.1 Pangenome Mapper — `build_mappings`
(panphlan_profile.py, lines 1005-1013)

```python
words = line.strip().split('\t')
fml, gene, genome, ctg, fr, to = words[FAMILY_INDEX], words[GENE_INDEX],
    words[GENOME_INDEX], words[CONTIG_INDEX], int(words[FROM_INDEX]), int(words[TO_INDEX])
```

A row with fewer than six fields raises `IndexError` at one of the lookups; a
non-numeric coordinate raises `ValueError` inside `int()`. Both uncaught
exceptions abort the mapper; the spec's name for this failure is
`MalformedRecordError`, modelled here as the error type of the parser with one
constructor per Python exception class. `int()` on a string is modelled by
`String.toInt?`. -/

structure PangenomeRecord where
  fml : String
  gene : String
  genome : String
  ctg : String
  fr : ℤ
  upto : ℤ

inductive MalformedRecordError where
  /-- Models a Python `IndexError` (fewer than six fields). -/
  | indexError
  /-- Models a Python `ValueError` (non-numeric `int()` argument). -/
  | valueError

/-- Field lookup `words[i]`. -/
def getWord (words : List String) (i : ℕ) : Except MalformedRecordError String :=
  match words.get? i with
  | some w => Except.ok w
  | none => Except.error MalformedRecordError.indexError

/-- Python `int(w)`. -/
def pyInt (w : String) : Except MalformedRecordError ℤ :=
  match w.toInt? with
  | some n => Except.ok n
  | none => Except.error MalformedRecordError.valueError

/-- One row of the pangenome table, parsed in the evaluation order of the
Python tuple assignment. -/
def parse_pangenome_row (words : List String) :
    Except MalformedRecordError PangenomeRecord := do
  let fml ← getWord words 0
  let gene ← getWord words 1
  let genome ← getWord words 2
  let ctg ← getWord words 3
  let frw ← getWord words 4
  let fr ← pyInt frw
  let tow ← getWord words 5
  let upto ← pyInt tow
  return ⟨fml, gene, genome, ctg, fr, upto⟩

/-- C6: every row with fewer than six tab-separated fields or a non-numeric
start/stop coordinate makes the Pangenome Mapper fail with a
`MalformedRecordError`. -/
theorem parse_pangenome_row_malformed (words : List String)
    (h : words.length < 6 ∨ (words.getD 4 "").toInt? = none ∨
      (words.getD 5 "").toInt? = none) :
    ∃ e, parse_pangenome_row words = Except.error e := by
  match words with
  | [] => exact ⟨_, rfl⟩
  | [w0] => exact ⟨_, rfl⟩
  | [w0, w1] => exact ⟨_, rfl⟩
  | [w0, w1, w2] => exact ⟨_, rfl⟩
  | [w0, w1, w2, w3] => exact ⟨_, rfl⟩
  | [w0, w1, w2, w3, w4] =>
    cases h4 : w4.toInt? with
    | none =>
      refine ⟨MalformedRecordError.valueError, ?_⟩
      simp [parse_pangenome_row, getWord, pyInt, h4, List.get?, Bind.bind, Except.bind, Functor.map, Except.map]
    | some n =>
      refine ⟨MalformedRecordError.indexError, ?_⟩
      simp [parse_pangenome_row, getWord, pyInt, h4, List.get?, Bind.bind, Except.bind, Functor.map, Except.map]
  | w0 :: w1 :: w2 :: w3 :: w4 :: w5 :: rest =>
    have hlen : ¬ (w0 :: w1 :: w2 :: w3 :: w4 :: w5 :: rest).length < 6 := by
      simp [List.length_cons]
    rcases h with hshort | h4 | h5
    · exact absurd hshort hlen
    · cases h4' : w4.toInt? with
      | none =>
        refine ⟨MalformedRecordError.valueError, ?_⟩
        simp [parse_pangenome_row, getWord, pyInt, h4', List.get?, Bind.bind, Except.bind, Functor.map, Except.map]
      | some n =>
        rw [show ((w0 :: w1 :: w2 :: w3 :: w4 :: w5 :: rest).getD 4 "") = w4 from rfl] at h4
        exact absurd h4' (h4 ▸ by simp)
    · cases h4' : w4.toInt? with
      | none =>
        refine ⟨MalformedRecordError.valueError, ?_⟩
        simp [parse_pangenome_row, getWord, pyInt, h4', List.get?, Bind.bind, Except.bind, Functor.map, Except.map]
      | some n =>
        rw [show ((w0 :: w1 :: w2 :: w3 :: w4 :: w5 :: rest).getD 5 "") = w5 from rfl] at h5
        refine ⟨MalformedRecordError.valueError, ?_⟩
        simp [parse_pangenome_row, getWord, pyInt, h4', h5, List.get?, Bind.bind, Except.bind, Functor.map, Except.map]

/-- C6 witness: the theorem applied to a five-field row (missing the stop
coordinate) and to a six-field row whose start coordinate is the empty string
(not a numeral). -/
theorem parse_pangenome_row_malformed_witness :
    (∃ e, parse_pangenome_row ["F", "g", "G", "c", "7"] = Except.error e) ∧
    (∃ e, parse_pangenome_row ["F", "g", "G", "c", "", "9"] = Except.error e) :=
  ⟨parse_pangenome_row_malformed ["F", "g", "G", "c", "7"] (Or.inl (by simp)),
   parse_pangenome_row_malformed ["F", "g", "G", "c", "", "9"]
     (Or.inr (Or.inl rfl))⟩

/-! ## 4.6 Strain Filter — `strains_filtering`
(panphlan_profile.py, lines 304-341)

```python
strain_families = [f for f in f2p if f2p[f]]
strain_length = len(strain_families)
half = int(strain_length * similarity / 100)
numof_ss_families = 0
for f in strain_families:
    if f in samples_panfamilies:
        numof_ss_families += 1
        if numof_ss_families >= half:
            break # Exit from the loop to improve performances
if numof_ss_families < half:
    rejected_strains.append(s)
```
-/

/-- `half = int(strain_length * similarity / 100)`. -/
def strain_half (strain_length : ℕ) (similarity : ℚ) : ℤ :=
  pyTrunc ((strain_length : ℚ) * similarity / 100)

/-- The short-circuited counting loop; `c` is the running count. -/
def sc_count : List String → (String → Bool) → ℤ → ℤ → ℤ
  | [], _, _, c => c
  | f :: fs, pan, half, c =>
    if pan f then
      if half ≤ c + 1 then c + 1
      else sc_count fs pan half (c + 1)
    else sc_count fs pan half c

/-- The rejection decision for a strain with present-family list
`strain_families`, where `pan` is membership in `samples_panfamilies`. -/
def strain_rejected (strain_families : List String) (pan : String → Bool)
    (similarity : ℚ) : Bool :=
  decide (sc_count strain_families pan
      (strain_half strain_families.length similarity) 0 <
    strain_half strain_families.length similarity)

theorem sc_count_lt (l : List String) (pan : String → Bool) (half : ℤ) :
    ∀ c : ℤ, (sc_count l pan half c < half ↔
      c + ((l.filter pan).length : ℤ) < half) := by
  induction l with
  | nil => intro c; simp [sc_count]
  | cons f fs ih =>
    intro c
    cases hp : pan f with
    | true =>
      rw [List.filter_cons_of_pos hp, List.length_cons]
      simp only [sc_count, hp, if_true]
      by_cases hh : half ≤ c + 1
      · rw [if_pos hh]
        push_cast
        omega
      · rw [if_neg hh, ih (c + 1)]
        push_cast
        omega
    | false =>
      rw [List.filter_cons_of_neg (by simp [hp])]
      simp only [sc_count, hp, if_false]
      exact ih c

theorem strain_rejected_iff (strain_families : List String) (pan : String → Bool)
    (similarity : ℚ) :
    strain_rejected strain_families pan similarity = true ↔
      ((strain_families.filter pan).length : ℤ) <
        strain_half strain_families.length similarity := by
  unfold strain_rejected
  rw [decide_eq_true_iff]
  simpa using sc_count_lt strain_families pan
    (strain_half strain_families.length similarity) 0

/-- C7: strain rejection is monotone in the similarity percentage — if a
strain is rejected at threshold `s ≤ s'` then it is rejected at `s'` — and
the short-circuited count does not change any rejection decision: the strain
is rejected exactly when the full count of its families present in
`samples_panfamilies` is below `int(strain_length·s/100)`. -/
theorem strain_rejection_monotone (strain_families : List String)
    (pan : String → Bool) (s s' : ℚ) (hss : s ≤ s') :
    (strain_rejected strain_families pan s = true →
      strain_rejected strain_families pan s' = true) ∧
    (strain_rejected strain_families pan s = true ↔
      ((strain_families.filter pan).length : ℤ) <
        strain_half strain_families.length s) := by
  have hmono : strain_half strain_families.length s ≤
      strain_half strain_families.length s' := by
    unfold strain_half
    apply pyTrunc_mono
    gcongr
  refine ⟨?_, strain_rejected_iff strain_families pan s⟩
  intro h
  rw [strain_rejected_iff] at h ⊢
  exact lt_of_lt_of_le h hmono

/-- C7 witness: a strain with two present families, none of them present in
the samples, is rejected at similarity 50 and hence also at 60. -/
theorem strain_rejection_monotone_witness :
    strain_rejected ["f1", "f2"] (fun _ => false) 60 = true := by
  have hhalf : strain_half 2 50 = 1 := by
    unfold strain_half pyTrunc
    norm_num
  have h50 : strain_rejected ["f1", "f2"] (fun _ => false) 50 = true := by
    rw [(strain_rejection_monotone ["f1", "f2"] (fun _ => false) 50 50 le_rfl).2]
    simp [hhalf]
  exact (strain_rejection_monotone ["f1", "f2"] (fun _ => false) 50 60
    (by norm_num)).1 h50

/-! ## 4.6 Never-present family exclusion — `strains_filtering` (lines 345-358)
and `samples_strains_presences` (lines 604-614)

```python
never_present_families = []
for f in families:
    always_zero = True
    for g in strain2family2presence:
        if strain2family2presence[g][f]:
            always_zero = False
            break
    if always_zero:
        never_present_families.append(f)
...
for f in families:
    if f not in never_present_families:
        csv.write(f)   # row of the merged matrix
```

After the rejected strains are deleted, the keys of
`strain2family2presence` are exactly the surviving strains; sample presence is
never consulted. -/

/-- Families false in every surviving strain. -/
def never_present_families (families surviving_strains : List String)
    (strain2family2presence : String → String → Bool) : List String :=
  families.filter (fun f =>
    surviving_strains.all (fun g => ! strain2family2presence g f))

/-- Rows of the merged sample+strain printed matrix. -/
def merged_matrix_rows (families surviving_strains : List String)
    (strain2family2presence : String → String → Bool) : List String :=
  families.filter (fun f =>
    ! (never_present_families families surviving_strains
        strain2family2presence).contains f)

/-- C8: a family present in no surviving strain is classified never-present
and its row is excluded from the merged printed matrix; neither computation
consults sample presence (their inputs contain no sample data), so this holds
in particular for a family present in zero strains and zero samples. -/
theorem never_present_excluded (families surviving_strains : List String)
    (strain2family2presence : String → String → Bool) (f : String)
    (hf : f ∈ families)
    (habs : ∀ g ∈ surviving_strains, strain2family2presence g f = false) :
    f ∈ never_present_families families surviving_strains strain2family2presence ∧
    f ∉ merged_matrix_rows families surviving_strains strain2family2presence := by
  have hnp : f ∈ never_present_families families surviving_strains
      strain2family2presence := by
    apply List.mem_filter.mpr
    refine ⟨hf, ?_⟩
    rw [List.all_eq_true]
    intro g hg
    simp [habs g hg]
  refine ⟨hnp, ?_⟩
  intro hmem
  obtain ⟨-, hcon⟩ := List.mem_filter.mp hmem
  rw [Bool.not_eq_true'] at hcon
  exact (by simpa using hcon : f ∉ never_present_families families
    surviving_strains strain2family2presence) hnp

/-- C8 witness: one family, one surviving strain that lacks it: the family is
never-present and absent from the merged rows. -/
theorem never_present_excluded_witness :
    "f0" ∈ never_present_families ["f0"] ["s0"] (fun _ _ => false) ∧
    "f0" ∉ merged_matrix_rows ["f0"] ["s0"] (fun _ _ => false) :=
  never_present_excluded ["f0"] ["s0"] (fun _ _ => false) "f0" (by simp)
    (fun g _ => rfl)

/-! ## C5: which outputs contain rejected samples

Column construction of each output, following `main` (lines 1390-1445):
* the gene-family coverage matrix is printed from ALL samples before
  filtering (`print_coverage_matrix`, line 931: `sorted([dna_file2id[s] for s
  in dna_files_list])`);
* `dna_sample_filtering` returns `accepted_samples_list = sorted([s for s in
  sample2accepted if sample2accepted[s]])` (line 828) and `main` passes it as
  the sample list of `dna_indexing` (line 1413), whose header and rows use
  only that list (lines 714-731);
* `dna_presencing` keeps `[s for s in dna_files_list if accepted_samples[s]]`
  (lines 638-639);
* the merged sample+strain matrix columns are the sorted keys of the presence
  dictionary built by `dna_presencing` (accepted samples only) followed by the
  selected strains (lines 592-594);
* `strains_gene_hit_percentage` uses the accepted samples only (line 531);
* `rna_seq` first restricts to accepted DNA samples (line 414) and then to
  those with an RNA file (lines 416-419).

The renaming `dna_file2id` / `sample_name` is a bijection on the sample
identifiers and is modelled as the identity. -/

/-- Python `sorted` on a list of strings. -/
def sortStr (l : List String) : List String := l.insertionSort (· ≤ ·)

/-- Columns of the gene-family coverage matrix (all samples). -/
def coverage_matrix_columns (dna_files_list : List String) : List String :=
  sortStr dna_files_list

/-- The accepted-samples list returned by the plateau filter. -/
def accepted_samples_list (dna_files_list : List String)
    (accepted : String → Bool) : List String :=
  sortStr (dna_files_list.filter accepted)

/-- Columns of the 4-level DNA index matrix. -/
def dna_index_columns (dna_files_list : List String)
    (accepted : String → Bool) : List String :=
  sortStr (accepted_samples_list dna_files_list accepted)

/-- Columns of the presence/absence matrix. -/
def presence_columns (dna_files_list : List String)
    (accepted : String → Bool) : List String :=
  dna_files_list.filter accepted

/-- Sample columns of the merged sample+strain matrix. -/
def merged_matrix_columns (dna_files_list : List String)
    (accepted : String → Bool) (selected_strains : List String) : List String :=
  sortStr (presence_columns dna_files_list accepted) ++ selected_strains

/-- Sample columns of the strain gene-hit percentage report. -/
def gene_hit_columns (dna_files_list : List String)
    (accepted : String → Bool) : List String :=
  sortStr (dna_files_list.filter accepted)

/-- DNA samples processed by the RNA/DNA co-indexer. -/
def rna_processed_samples (dna_files_list : List String)
    (accepted : String → Bool) (has_rna_pair : String → Bool) : List String :=
  (accepted_samples_list dna_files_list accepted).filter has_rna_pair

/-- C5 counterexample: a rejected sample appears in the coverage output but
NOT in the 4-level DNA index output — `dna_indexing` receives only the
accepted samples — contradicting the claim that rejected samples still appear
in the index output. -/
theorem rejected_sample_index_counterexample :
    "s1" ∈ coverage_matrix_columns ["s1"] ∧
    "s1" ∉ dna_index_columns ["s1"] (fun _ => false) := by
  constructor
  · unfold coverage_matrix_columns sortStr
    rw [List.mem_insertionSort]
    simp
  · unfold dna_index_columns accepted_samples_list sortStr
    rw [List.mem_insertionSort, List.mem_insertionSort]
    simp

/-- C5 (amended): every sample rejected by the plateau filter still appears in
the gene-family coverage output, but is excluded from the 4-level DNA index
output as well as from the presence/absence, merged strain, gene-hit, and RNA
outputs. -/
theorem rejected_sample_retention_amended (dna_files_list : List String)
    (accepted : String → Bool) (has_rna_pair : String → Bool)
    (selected_strains : List String) (s : String)
    (hs : s ∈ dna_files_list) (hrej : accepted s = false)
    (hnotstrain : s ∉ selected_strains) :
    s ∈ coverage_matrix_columns dna_files_list ∧
    s ∉ dna_index_columns dna_files_list accepted ∧
    s ∉ presence_columns dna_files_list accepted ∧
    s ∉ merged_matrix_columns dna_files_list accepted selected_strains ∧
    s ∉ gene_hit_columns dna_files_list accepted ∧
    s ∉ rna_processed_samples dna_files_list accepted has_rna_pair := by
  have hnotfilter : s ∉ dna_files_list.filter accepted := by
    intro h
    have := (List.mem_filter.mp h).2
    rw [hrej] at this
    exact Bool.false_ne_true this
  have hnotsorted : s ∉ sortStr (dna_files_list.filter accepted) := by
    unfold sortStr
    rw [List.mem_insertionSort]
    exact hnotfilter
  refine ⟨?_, ?_, ?_, ?_, ?_, ?_⟩
  · unfold coverage_matrix_columns sortStr
    rw [List.mem_insertionSort]
    exact hs
  · unfold dna_index_columns accepted_samples_list sortStr
    rw [List.mem_insertionSort, List.mem_insertionSort]
    exact hnotfilter
  · exact hnotfilter
  · unfold merged_matrix_columns presence_columns
    rw [List.mem_append]
    rintro (hmem | hmem)
    · exact hnotsorted hmem
    · exact hnotstrain hmem
  · exact hnotsorted
  · unfold rna_processed_samples accepted_samples_list
    intro hmem
    exact hnotsorted (List.mem_filter.mp hmem).1

/-- C5 witness: the amended theorem applied to a single rejected sample with
an RNA pairing and no strains. -/
theorem rejected_sample_retention_amended_witness :
    "s1" ∈ coverage_matrix_columns ["s1"] ∧
    "s1" ∉ dna_index_columns ["s1"] (fun _ => false) ∧
    "s1" ∉ presence_columns ["s1"] (fun _ => false) ∧
    "s1" ∉ merged_matrix_columns ["s1"] (fun _ => false) ["strainA"] ∧
    "s1" ∉ gene_hit_columns ["s1"] (fun _ => false) ∧
    "s1" ∉ rna_processed_samples ["s1"] (fun _ => false) (fun _ => true) :=
  rejected_sample_retention_amended ["s1"] (fun _ => false) (fun _ => true)
    ["strainA"] "s1" (by simp) rfl (by simp)

end Panphlan
